import Mathlib

/-!
Shallow embedding of the os-timer crate's three timer backends
(`src/timer/apple.rs`, `src/timer/posix.rs`, `src/timer/win32.rs`).

Pointers, handles and opaque context words are modelled as `Nat`, with `0`
playing the role of the null pointer / zero sentinel.  Native calls are
external collaborators: where a native call returns a value (for example
`dispatch_source_create` or `posix_timer`), the embedding takes that value
as an explicit oracle argument; where a native call mutates kernel-side
state, that state is carried as an explicit field of the timer state
record.  Machine-integer casts (`as i64`, `as u32`, ...) are modelled by
explicit modular arithmetic on `Nat`/`Int`.
-/

namespace OsTimer

/-- `core::time::Duration`: whole seconds (a u64 in Rust) and subsecond
nanoseconds (a u32, with the invariant `nanos < 10^9`).  The
well-formedness bounds are taken as hypotheses where a statement needs
them. -/
structure Duration where
  secs : Nat
  nanos : Nat
deriving DecidableEq

/-- `Duration::as_nanos` (returns u128 in Rust; never overflows for
well-formed inputs, so plain `Nat` arithmetic is exact). -/
def Duration.as_nanos (d : Duration) : Nat := d.secs * 1000000000 + d.nanos

/-- `Duration::as_millis` (u128 in Rust): `secs * 1000 + nanos / 10^6`. -/
def Duration.as_millis (d : Duration) : Nat := d.secs * 1000 + d.nanos / 1000000

/-- Rust `as u32` on an unsigned value: keep the low 32 bits. -/
def asU32 (n : Nat) : Nat := n % 2 ^ 32

/-- Rust `as u64` on an unsigned value: keep the low 64 bits. -/
def asU64 (n : Nat) : Nat := n % 2 ^ 64

/-- Rust cast of an unsigned value to `i64`: keep the low 64 bits and
reinterpret them in two's complement. -/
def asI64 (n : Nat) : Int :=
  if n % 2 ^ 64 < 2 ^ 63 then ((n % 2 ^ 64 : Nat) : Int)
  else ((n % 2 ^ 64 : Nat) : Int) - 2 ^ 64

/-- Wrap a mathematical integer to `i64` two's complement (release-mode
wrapping semantics of `i64` addition and negation). -/
def iwrap64 (x : Int) : Int :=
  if x % 2 ^ 64 < 2 ^ 63 then x % 2 ^ 64 else x % 2 ^ 64 - 2 ^ 64

namespace Apple

/-- The effect of a trampoline when the native source fires: reinterpret
the opaque context word and invoke the underlying callable. -/
inductive Invocation
  | callFn (addr : Nat)
  | callUnchecked (addr : Nat)
  | callClosure (addr : Nat)
deriving DecidableEq

/-- `timer_callback` (apple.rs line 43): if the context word is non-null,
transmute it back to `fn()` and call it; a null context is a no-op. -/
def timer_callback (data : Nat) : List Invocation :=
  if data = 0 then [] else [.callFn data]

/-- `timer_callback_unsafe` (apple.rs line 51, renamed here): same shape,
but the reconstructed call is itself an unchecked call. -/
def timer_callback_unchecked (data : Nat) : List Invocation :=
  if data = 0 then [] else [.callUnchecked data]

/-- `timer_callback_generic::<T>` (apple.rs line 59): if the context word
is non-null, reinterpret it as `*mut T` and invoke the closure mutably. -/
def timer_callback_generic (data : Nat) : List Invocation :=
  if data = 0 then [] else [.callClosure data]

/-- The `ffi::Callback` function pointers that can be installed as the
event handler: the three trampolines above, plus arbitrary caller-supplied
raw callbacks (`Callback::raw`), distinguished by an identifier. -/
inductive FfiCb
  | timer_cb
  | timer_cb_unchecked
  | timer_cb_generic
  | raw_cb (id : Nat)
deriving DecidableEq

/-- `CallbackVariant` (apple.rs line 67): `Trivial` carries a bare data
word (a function address), `Boxed` carries ownership of a heap closure;
the `Nat` is the address the `Box` occupies (non-null in Rust). -/
inductive CallbackVariant
  | Trivial (data : Nat)
  | Boxed (addr : Nat)
deriving DecidableEq

/-- `Callback` (apple.rs line 73). -/
structure Callback where
  variant : CallbackVariant
  ffi_cb : FfiCb
deriving DecidableEq

/-- `Callback::raw` (apple.rs line 82). -/
def Callback.raw (ffi_cb : FfiCb) (data : Nat) : Callback := ⟨.Trivial data, ffi_cb⟩

/-- `Callback::plain` (apple.rs line 90): the function address becomes the
opaque word, paired with the plain trampoline. -/
def Callback.plain (f : Nat) : Callback := ⟨.Trivial f, .timer_cb⟩

/-- `Callback::unsafe_plain` (apple.rs line 98, renamed here). -/
def Callback.unchecked_plain (f : Nat) : Callback := ⟨.Trivial f, .timer_cb_unchecked⟩

/-- `Callback::closure` (apple.rs line 106): the closure is boxed; the box
address is the opaque word, paired with the generic trampoline. -/
def Callback.closure (addr : Nat) : Callback := ⟨.Boxed addr, .timer_cb_generic⟩

/-- The `(data, ffi_data)` pair computed in `Timer::init`/`Timer::new`
(apple.rs lines 190-196 and 230-236): for `Trivial` the retained
`BoxFnPtr` word is 0 and the native context is the bare data word; for
`Boxed` the box is turned into a raw pointer which serves as both. -/
def callbackData : Callback → Nat × Nat
  | ⟨.Trivial data, _⟩ => (0, data)
  | ⟨.Boxed addr, _⟩ => (addr, addr)

/-- Native calls made by the scheduling operations, in order. -/
inductive Event
  | suspend_ev (handle : Nat)
  | resume_ev (handle : Nat)
  | set_timer (handle : Nat) (start : Int) (interval : Nat) (leeway : Nat)
deriving DecidableEq

/-- `ffi::DISPATCH_TIME_FOREVER = !0` (u64). -/
def DISPATCH_TIME_FOREVER : Nat := 2 ^ 64 - 1

/-- `Timer` (apple.rs line 115) together with the kernel-side state of the
dispatch source it owns.  `inner` is the `AtomicPtr` handle (0 = null =
uninitialized), `suspendFlag` is the `suspend: AtomicBool` field, `data`
is the retained `BoxFnPtr` word in the `Cell`.  `handler`/`context` model
what `dispatch_source_set_event_handler_f`/`dispatch_set_context`
installed into the native source, and `cfg` the `(start, interval)` pair
last passed to `dispatch_source_set_timer`. -/
structure Timer where
  inner : Nat
  suspendFlag : Bool
  data : Nat
  handler : Option FfiCb
  context : Nat
  cfg : Option (Int × Nat)
deriving DecidableEq

/-- `Timer::uninit` (apple.rs line 127): null handle, created suspended,
empty callback storage, no native object. -/
def Timer.uninit : Timer := ⟨0, true, 0, none, 0, none⟩

/-- `Timer::is_init` (apple.rs line 163). -/
def Timer.is_init (t : Timer) : Bool := decide (t.inner ≠ 0)

/-- `Timer::suspend` (apple.rs line 143): compare-and-swap the flag from
`false` to `true`; only on success is `dispatch_suspend` called. -/
def Timer.suspend (t : Timer) : Timer × List Event :=
  if t.suspendFlag = false then ({ t with suspendFlag := true }, [.suspend_ev t.inner])
  else (t, [])

/-- `Timer::resume` (apple.rs line 152): compare-and-swap the flag from
`true` to `false`; only on success is `dispatch_resume` called. -/
def Timer.resume (t : Timer) : Timer × List Event :=
  if t.suspendFlag = true then ({ t with suspendFlag := false }, [.resume_ev t.inner])
  else (t, [])

/-- `Timer::init` (apple.rs line 175), single-caller semantics.  `handle`
is the oracle result of `dispatch_source_create` (0 models null).  After
the `is_init` precheck the compare-and-swap on the (unchanged) null slot
succeeds, so: a null handle means failure with no state change, a
non-null handle is published together with the handler/context commit and
the `BoxFnPtr` word.  The contended compare-and-swap is modelled
separately by `initCas`/`raceInit` below. -/
def Timer.init (t : Timer) (cb : Callback) (handle : Nat) : Bool × Timer :=
  if t.is_init then (false, t)
  else if handle = 0 then (false, t)
  else
    (true,
      { t with
          inner := handle
          data := (callbackData cb).1
          handler := some cb.ffi_cb
          context := (callbackData cb).2 })

/-- `Timer::new` (apple.rs line 219): create the native object, fail with
`None` on a null handle, otherwise install handler/context and construct
the timer directly (no compare-and-swap). -/
def Timer.new (cb : Callback) (handle : Nat) : Option Timer :=
  if handle = 0 then none
  else some ⟨handle, true, (callbackData cb).1, some cb.ffi_cb, (callbackData cb).2, none⟩

/-- Outcome of the compare-and-swap section of `Timer::init`
(apple.rs lines 185-212) for one caller: `ok` is the returned Bool,
`slot` the shared `inner` slot after the attempt, `committed` the
handler/context pair installed into the published source (if this caller
won with a non-null handle), `dataWord` the stored `BoxFnPtr` word, and
`released` the handles passed to `dispatch_release` (the loser destroys
its never-published object). -/
structure CasOutcome where
  ok : Bool
  slot : Nat
  committed : Option (FfiCb × Nat)
  dataWord : Nat
  released : List Nat
deriving DecidableEq

/-- The compare-and-swap section of `Timer::init` (apple.rs lines
185-212): CAS expects null (0).  If the slot is empty the CAS wins and
the handle (possibly null) is written; a null handle then reports
failure, a non-null one commits handler/context and the data word.  If
the slot is occupied the CAS loses: the just-created handle is released
and failure is reported. -/
def initCas (slot : Nat) (cb : Callback) (handle : Nat) : CasOutcome :=
  if slot = 0 then
    if handle = 0 then ⟨false, handle, none, 0, []⟩
    else ⟨true, handle, some (cb.ffi_cb, (callbackData cb).2), (callbackData cb).1, []⟩
  else ⟨false, slot, none, 0, [handle]⟩

/-- Result of two concurrent `init` calls on one timer. -/
structure RaceOutcome where
  okA : Bool
  okB : Bool
  slot : Nat
  committed : Option (FfiCb × Nat)
  releasedA : List Nat
  releasedB : List Nat
deriving DecidableEq

/-- Two callers race `Timer::init` on the same fresh timer: both pass the
`is_init` precheck (slot still 0), both create their native objects
(`hA`, `hB`), and then their compare-and-swaps execute atomically in
some order (`aFirst`).  The committed handler/context is the one
installed by whichever CAS succeeded. -/
def raceInit (cbA cbB : Callback) (hA hB : Nat) (aFirst : Bool) : RaceOutcome :=
  if aFirst then
    let ra := initCas 0 cbA hA
    let rb := initCas ra.slot cbB hB
    ⟨ra.ok, rb.ok, rb.slot, if ra.ok then ra.committed else rb.committed, ra.released, rb.released⟩
  else
    let rb := initCas 0 cbB hB
    let ra := initCas rb.slot cbA hA
    ⟨ra.ok, rb.ok, ra.slot, if rb.ok then rb.committed else ra.committed, ra.released, rb.released⟩

/-- `Timer::schedule_once` (apple.rs line 256): suspend, configure the
native timer with the walltime delta `timeout.as_nanos() as i64` and the
infinite repeat interval `DISPATCH_TIME_FOREVER`, then resume. -/
def Timer.schedule_once (t : Timer) (timeout : Duration) : Timer × List Event :=
  let r1 := t.suspend
  let t2 : Timer := { r1.1 with cfg := some (asI64 timeout.as_nanos, DISPATCH_TIME_FOREVER) }
  let r3 := t2.resume
  (r3.1, r1.2 ++ [Event.set_timer t.inner (asI64 timeout.as_nanos) DISPATCH_TIME_FOREVER 0]
    ++ r3.2)

/-- `Timer::schedule_interval` (apple.rs line 280): suspend, configure the
native timer with start `timeout.as_nanos() as i64` and repeat interval
`interval.as_nanos() as u64`, resume, and report `true`. -/
def Timer.schedule_interval (t : Timer) (timeout interval : Duration) :
    Timer × List Event × Bool :=
  let r1 := t.suspend
  let t2 : Timer := { r1.1 with cfg := some (asI64 timeout.as_nanos, asU64 interval.as_nanos) }
  let r3 := t2.resume
  (r3.1, r1.2 ++ [Event.set_timer t.inner (asI64 timeout.as_nanos) (asU64 interval.as_nanos) 0]
    ++ r3.2, true)

/-- `Timer::is_scheduled` (apple.rs line 300): the negation of the
suspension flag (only "armed since last cancel" is tracked). -/
def Timer.is_scheduled (t : Timer) : Bool := !t.suspendFlag

/-- `Timer::cancel` (apple.rs line 306): just `suspend`. -/
def Timer.cancel (t : Timer) : Timer × List Event := t.suspend

/-- `cancel` iterated `n` times (discarding the per-call event lists). -/
def Timer.cancelN (t : Timer) : Nat → Timer
  | 0 => t
  | n + 1 => ((Timer.cancelN t n).cancel).1

/-- Walltime offset (from the moment of arming) of the `k`-th firing of a
resumed dispatch timer source configured with start offset `s` and repeat
interval `i`: the source fires at `s`, `s + i`, `s + 2i`, ... -/
def fireTime (s : Int) (i : Nat) (k : Nat) : Int := s + (k : Int) * (i : Int)

end Apple

namespace Posix

/-- `libc::sigval`: the single untyped context word delivered to a POSIX
timer notification function. -/
structure sigval where
  sival_ptr : Nat
deriving DecidableEq

/-- The effect of a trampoline when the kernel timer fires. -/
inductive Invocation
  | callFn (addr : Nat)
  | callUnchecked (addr : Nat)
  | callClosure (addr : Nat)
deriving DecidableEq

/-- `ffi::timer_callback` (posix.rs line 17): if `sival_ptr` is non-null,
transmute it back to `fn()` and call it; a null pointer is a no-op. -/
def timer_callback (value : sigval) : List Invocation :=
  if value.sival_ptr = 0 then [] else [.callFn value.sival_ptr]

/-- `ffi::timer_callback_unsafe` (posix.rs line 25, renamed here). -/
def timer_callback_unchecked (value : sigval) : List Invocation :=
  if value.sival_ptr = 0 then [] else [.callUnchecked value.sival_ptr]

/-- `ffi::timer_callback_generic::<T>` (posix.rs line 33). -/
def timer_callback_generic (value : sigval) : List Invocation :=
  if value.sival_ptr = 0 then [] else [.callClosure value.sival_ptr]

/-- The `ffi::Callback` notification functions: the three trampolines
plus caller-supplied raw callbacks. -/
inductive FfiCb
  | timer_cb
  | timer_cb_unchecked
  | timer_cb_generic
  | raw_cb (id : Nat)
deriving DecidableEq

/-- `CallbackVariant` (posix.rs line 78). -/
inductive CallbackVariant
  | Trivial (data : Nat)
  | Boxed (addr : Nat)
deriving DecidableEq

/-- `Callback` (posix.rs line 84). -/
structure Callback where
  variant : CallbackVariant
  ffi_cb : FfiCb
deriving DecidableEq

/-- `Callback::raw` (posix.rs line 93). -/
def Callback.raw (ffi_cb : FfiCb) (data : Nat) : Callback := ⟨.Trivial data, ffi_cb⟩

/-- `Callback::plain` (posix.rs line 101). -/
def Callback.plain (f : Nat) : Callback := ⟨.Trivial f, .timer_cb⟩

/-- `Callback::unsafe_plain` (posix.rs line 109, renamed here). -/
def Callback.unchecked_plain (f : Nat) : Callback := ⟨.Trivial f, .timer_cb_unchecked⟩

/-- `Callback::closure` (posix.rs line 117): the closure is boxed; the box
address is the opaque word. -/
def Callback.closure (addr : Nat) : Callback := ⟨.Boxed addr, .timer_cb_generic⟩

/-- The `(data, ffi_data)` pair computed in `Timer::init`/`Timer::new`
(posix.rs lines 170-176 and 205-211): `Trivial` retains a zero `BoxFnPtr`
word and passes the bare data word; `Boxed` turns the box into a raw
pointer serving as both. -/
def callbackData : Callback → Nat × Nat
  | ⟨.Trivial data, _⟩ => (0, data)
  | ⟨.Boxed addr, _⟩ => (addr, addr)

/-- `ffi::timespec` (posix.rs line 43). -/
structure timespec where
  tv_sec : Int
  tv_nsec : Int
deriving DecidableEq

/-- `ffi::itimerspec` (posix.rs line 50): reload interval first, then the
initial expiration, as in the C layout. -/
structure itimerspec where
  it_interval : timespec
  it_value : timespec
deriving DecidableEq

/-- `ffi::ZERO_TIMER_DURATION` (posix.rs line 55). -/
def ZERO_TIMER_DURATION : itimerspec := ⟨⟨0, 0⟩, ⟨0, 0⟩⟩

/-- The validity check the kernel applies to each `timespec` passed to
`timer_settime` (EINVAL otherwise): non-negative seconds and nanoseconds
in `[0, 10^9)`. -/
def timespec_valid (ts : timespec) : Bool :=
  decide (0 ≤ ts.tv_sec) && decide (0 ≤ ts.tv_nsec) && decide (ts.tv_nsec < 1000000000)

/-- `timer_settime` kernel semantics (external collaborator).  The first
component is `true` when the call returns 0: invalid timespecs are
rejected with no state change; otherwise a zero `it_value` disarms the
timer and a non-zero one arms it with the new setting. -/
def timer_settime (armed : Option itimerspec) (new_value : itimerspec) :
    Bool × Option itimerspec :=
  if timespec_valid new_value.it_value && timespec_valid new_value.it_interval then
    if new_value.it_value = (⟨0, 0⟩ : timespec) then (true, none) else (true, some new_value)
  else (false, armed)

/-- `timer_gettime` kernel semantics: a disarmed timer reads back as
all-zero; an armed one reads back its setting (queried immediately, no
model time has elapsed). -/
def timer_gettime (armed : Option itimerspec) : itimerspec :=
  armed.getD ZERO_TIMER_DURATION

/-- The `ffi::timespec` built from a `Duration` in `schedule_interval`
(posix.rs lines 234-248): `as_secs() as time_t` (a 64-bit signed cast)
and `subsec_nanos() as suseconds_t` (a u32 widened, hence exact). -/
def to_timespec (d : Duration) : timespec := ⟨asI64 d.secs, (d.nanos : Int)⟩

/-- `Timer` (posix.rs line 126) together with the kernel state of the
timer it owns: `inner` is the `AtomicUsize` handle (0 = uninitialized),
`data` the retained `BoxFnPtr` word, `handler`/`context` the notification
function and context word the kernel timer was created with, and `armed`
its current arming state (fresh timers are disarmed). -/
structure Timer where
  inner : Nat
  data : Nat
  handler : Option FfiCb
  context : Nat
  armed : Option itimerspec
deriving DecidableEq

/-- `Timer::uninit` (posix.rs line 136). -/
def Timer.uninit : Timer := ⟨0, 0, none, 0, none⟩

/-- `Timer::is_init` (posix.rs line 152). -/
def Timer.is_init (t : Timer) : Bool := decide (t.inner ≠ 0)

/-- `Timer::init` (posix.rs line 164), single-caller semantics.  The
callback is unpacked first, then `posix_timer(CLOCK_MONOTONIC, cb, data)`
creates the kernel timer; `handle` is its oracle result (0 = failure).
After the `is_init` precheck the compare-and-swap on the null slot
succeeds, so a zero handle reports failure with the timer left untouched
(the slot is rewritten with 0), and a non-zero handle is published
together with the `BoxFnPtr` word. -/
def Timer.init (t : Timer) (cb : Callback) (handle : Nat) : Bool × Timer :=
  if t.is_init then (false, t)
  else if handle = 0 then (false, t)
  else (true, ⟨handle, (callbackData cb).1, some cb.ffi_cb, (callbackData cb).2, none⟩)

/-- `Timer::new` (posix.rs line 203): unpack the callback, create the
kernel timer, fail with `None` on a zero handle. -/
def Timer.new (cb : Callback) (handle : Nat) : Option Timer :=
  if handle = 0 then none
  else some ⟨handle, (callbackData cb).1, some cb.ffi_cb, (callbackData cb).2, none⟩

/-- `Timer::schedule_interval` (posix.rs line 233): build the
`itimerspec` from the two durations and hand it to `timer_settime`;
report whether the call returned 0. -/
def Timer.schedule_interval (t : Timer) (timeout interval : Duration) : Timer × Bool :=
  ({ t with armed := (timer_settime t.armed ⟨to_timespec interval, to_timespec timeout⟩).2 },
   (timer_settime t.armed ⟨to_timespec interval, to_timespec timeout⟩).1)

/-- `Timer::is_scheduled` (posix.rs line 265): `timer_gettime` and
compare against the all-zero `itimerspec`. -/
def Timer.is_scheduled (t : Timer) : Bool :=
  decide (timer_gettime t.armed ≠ ZERO_TIMER_DURATION)

/-- `Timer::cancel` (posix.rs line 281): if currently scheduled, disarm
by `timer_settime` with the zeroed `itimerspec` (the return value is
ignored). -/
def Timer.cancel (t : Timer) : Timer :=
  if t.is_scheduled then { t with armed := (timer_settime t.armed ZERO_TIMER_DURATION).2 }
  else t

/-- `cancel` iterated `n` times. -/
def Timer.cancelN (t : Timer) : Nat → Timer
  | 0 => t
  | n + 1 => (Timer.cancelN t n).cancel

end Posix

namespace Win32

/-- The trampoline function pointers (`ffi::Callback` is an
`Option<...>`; the builders always supply `Some`). -/
inductive FfiCb
  | timer_cb
  | timer_cb_unchecked
  | timer_cb_generic
deriving DecidableEq

/-- `CallbackVariant` (win32.rs line 49): the three callable shapes are
kept as typed variants; `Closure` carries the heap address of the
`Box<dyn FnMut()>`. -/
inductive CallbackVariant
  | PlainUnchecked (f : Nat)
  | Plain (f : Nat)
  | Closure (addr : Nat)
deriving DecidableEq

/-- `Callback` (win32.rs line 56). -/
structure Callback where
  variant : CallbackVariant
  ffi_cb : Option FfiCb
deriving DecidableEq

/-- `Callback::plain` (win32.rs line 65). -/
def Callback.plain (f : Nat) : Callback := ⟨.Plain f, some .timer_cb⟩

/-- `Callback::unsafe_plain` (win32.rs line 73, renamed here). -/
def Callback.unchecked_plain (f : Nat) : Callback := ⟨.PlainUnchecked f, some .timer_cb_unchecked⟩

/-- `Callback::closure` (win32.rs line 81). -/
def Callback.closure (addr : Nat) : Callback := ⟨.Closure addr, some .timer_cb_generic⟩

/-- The context word passed to `CreateThreadpoolTimer` (win32.rs lines
134-138 in `init`, 172-179 in `new`): the bare function address, or the
address of the boxed closure (`&*cb` and `Box::into_raw` both denote the
same heap address). -/
def ffi_data : CallbackVariant → Nat
  | .Plain f => f
  | .PlainUnchecked f => f
  | .Closure addr => addr

/-- Native calls made by `cancel` and `Drop`, in order.  `free_box addr`
models `Box::from_raw(transmute::<_, *mut dyn FnMut()>(addr))` being
dropped: the heap closure is reclaimed through its original type and its
own destructor runs. -/
inductive Event
  | set_timer_ex (handle : Nat) (due : Option (Int × Nat))
  | wait_callbacks (handle : Nat)
  | close (handle : Nat)
  | free_box (addr : Nat)
deriving DecidableEq

/-- `Timer` (win32.rs line 90) together with the state of the thread-pool
timer object it owns: `inner` is the `AtomicPtr` handle (0 = null),
`data` the retained `FatPtr` word in the `Cell`, `handler`/`context` what
`CreateThreadpoolTimer` installed, and `lastSet` the `(due, periodMs)`
pair last passed to `SetThreadpoolTimerEx` (`none` after a disarming
call). -/
structure Timer where
  inner : Nat
  data : Nat
  handler : Option (Option FfiCb)
  context : Nat
  lastSet : Option (Int × Nat)
deriving DecidableEq

/-- `Timer::uninit` (win32.rs line 100). -/
def Timer.uninit : Timer := ⟨0, 0, none, 0, none⟩

/-- `Timer::is_init` (win32.rs line 116). -/
def Timer.is_init (t : Timer) : Bool := decide (t.inner ≠ 0)

/-- `Timer::init` (win32.rs line 128), single-caller semantics.  The
context word is computed from a borrow of the variant, then
`CreateThreadpoolTimer` runs (`handle` is its oracle result, 0 = null).
After the `is_init` precheck the compare-and-swap on the null slot
succeeds; on a non-null handle a `Closure` variant is converted with
`Box::into_raw` and its address stored in the `Cell`, other variants
leave the stored word untouched. -/
def Timer.init (t : Timer) (cb : Callback) (handle : Nat) : Bool × Timer :=
  if t.is_init then (false, t)
  else if handle = 0 then (false, t)
  else
    (true,
      { t with
          inner := handle
          data := match cb.variant with
            | .Closure addr => addr
            | _ => t.data
          handler := some cb.ffi_cb
          context := ffi_data cb.variant })

/-- `Timer::new` (win32.rs line 170). -/
def Timer.new (cb : Callback) (handle : Nat) : Option Timer :=
  if handle = 0 then none
  else
    some ⟨handle,
      match cb.variant with
      | .Closure addr => addr
      | _ => 0,
      some cb.ffi_cb, ffi_data cb.variant, none⟩

/-- The due time handed to `SetThreadpoolTimerEx` (win32.rs lines
206-208): 100ns ticks computed with a widening division, a wrapping u64
multiplication reinterpreted as `i64`, a wrapping `i64` addition, and a
wrapping `i64` negation. -/
def win32_due_ticks (d : Duration) : Int :=
  iwrap64 (-(iwrap64 (((d.nanos / 100 : Nat) : Int) + asI64 (d.secs * 10000000))))

/-- `Timer::schedule_interval` (win32.rs line 205): the period is
`interval.as_millis() as u32`; the native call's result is discarded and
`true` is returned unconditionally. -/
def Timer.schedule_interval (t : Timer) (timeout interval : Duration) : Timer × Bool :=
  ({ t with lastSet := some (win32_due_ticks timeout, asU32 interval.as_millis) }, true)

/-- `Timer::cancel` (win32.rs line 221): disarm with a null due time and
wait for in-flight callbacks. -/
def Timer.cancel (t : Timer) : Timer × List Event :=
  ({ t with lastSet := none },
   [.set_timer_ex t.inner none, .wait_callbacks t.inner])

/-- `Drop for Timer` (win32.rs line 230): if initialized, cancel and
close the native object; then, if the stored `FatPtr` word is non-zero,
reconstruct the `Box<dyn FnMut()>` from it and drop it. -/
def Timer.drop (t : Timer) : List Event :=
  (if t.inner ≠ 0 then (t.cancel).2 ++ [Event.close t.inner] else []) ++
  (if t.data ≠ 0 then [Event.free_box t.data] else [])

end Win32

/-- C10: on the dispatch-queue (Apple) and POSIX backends, every native
trampoline variant (plain, unchecked-plain, and generic boxed-closure)
first checks its opaque context argument for null and returns without
invoking any callable when it is null, so a native firing that delivers a
null context word is a harmless no-op (and a non-null word is dispatched
to the reinterpreted callable). -/
theorem trampolines_null_context_noop :
    Apple.timer_callback 0 = [] ∧ Apple.timer_callback_unchecked 0 = [] ∧
    Apple.timer_callback_generic 0 = [] ∧
    Posix.timer_callback ⟨0⟩ = [] ∧ Posix.timer_callback_unchecked ⟨0⟩ = [] ∧
    Posix.timer_callback_generic ⟨0⟩ = [] ∧
    Apple.timer_callback 5 = [Apple.Invocation.callFn 5] ∧
    Posix.timer_callback_generic ⟨7⟩ = [Posix.Invocation.callClosure 7] := by
  decide

/-- C3: whenever native timer creation fails (the native call returns the
null/zero sentinel, modelled by oracle handle 0), `init` returns `false`
and `new` returns `none`, and no partial state is observable: the timer
is exactly the uninitialized one, `is_init` still reports `false`, and
the callback storage word is still empty. -/
theorem native_creation_failure_leaves_uninit
    (ca : Apple.Callback) (cp : Posix.Callback) :
    Apple.Timer.uninit.init ca 0 = (false, Apple.Timer.uninit) ∧
    Apple.Timer.new ca 0 = none ∧
    Apple.Timer.uninit.is_init = false ∧ Apple.Timer.uninit.data = 0 ∧
    Posix.Timer.uninit.init cp 0 = (false, Posix.Timer.uninit) ∧
    Posix.Timer.new cp 0 = none ∧
    Posix.Timer.uninit.is_init = false ∧ Posix.Timer.uninit.data = 0 := by
  simp [Apple.Timer.init, Apple.Timer.new, Apple.Timer.uninit, Apple.Timer.is_init,
    Posix.Timer.init, Posix.Timer.new, Posix.Timer.uninit, Posix.Timer.is_init]

/-- C2: for every timer that is already initialized, a subsequent `init`
with any callback returns `false` and leaves the entire timer state — in
particular the stored native handle and the callback storage word —
exactly as it was, on all three backends; the supplied callback is never
consumed into the timer. -/
theorem second_init_rejected
    (ta : Apple.Timer) (tp : Posix.Timer) (tw : Win32.Timer)
    (ca : Apple.Callback) (cp : Posix.Callback) (cw : Win32.Callback)
    (h : Nat)
    (ia : ta.is_init = true) (ip : tp.is_init = true) (iw : tw.is_init = true) :
    ta.init ca h = (false, ta) ∧ tp.init cp h = (false, tp) ∧ tw.init cw h = (false, tw) := by
  simp [Apple.Timer.init, Posix.Timer.init, Win32.Timer.init, ia, ip, iw]

/-- Witness for C2 at a concrete initialized timer. -/
theorem second_init_rejected_witness :
    (Apple.Timer.mk 1 true 0 none 0 none).init (Apple.Callback.plain 3) 9 =
      (false, Apple.Timer.mk 1 true 0 none 0 none) :=
  (second_init_rejected (Apple.Timer.mk 1 true 0 none 0 none)
    (Posix.Timer.mk 1 0 none 0 none) (Win32.Timer.mk 1 0 none 0 none)
    (Apple.Callback.plain 3) (Posix.Callback.plain 3) (Win32.Callback.plain 3) 9
    (by decide) (by decide) (by decide)).1

/-- C9: `Timer::new(callback)` is observably equivalent to constructing an
uninitialized timer and immediately calling `init(callback)` on it (minus
the compare-and-swap race): for the same native-creation outcome, `new`
returns `none` exactly when creation fails (handle 0), and on success it
returns exactly the timer state `init` would have produced — same handle,
same handler/context installation, same callback storage — while `init`
from uninitialized succeeds exactly when the handle is non-null. -/
theorem new_equiv_uninit_then_init
    (ca : Apple.Callback) (cp : Posix.Callback) (h : Nat) :
    Apple.Timer.new ca h =
      (if h = 0 then none else some ((Apple.Timer.uninit.init ca h).2)) ∧
    (Apple.Timer.uninit.init ca h).1 = !(decide (h = 0)) ∧
    Posix.Timer.new cp h =
      (if h = 0 then none else some ((Posix.Timer.uninit.init cp h).2)) ∧
    (Posix.Timer.uninit.init cp h).1 = !(decide (h = 0)) := by
  by_cases hz : h = 0 <;>
    simp [hz, Apple.Timer.new, Apple.Timer.init, Apple.Timer.uninit, Apple.Timer.is_init,
      Posix.Timer.new, Posix.Timer.init, Posix.Timer.uninit, Posix.Timer.is_init]

/-- C1: if `init` is invoked concurrently on the same fresh timer by two
callers with two different callbacks and both native creations succeed,
exactly one caller's compare-and-swap wins: that caller's `init` reports
success and its callback's trampoline/context pair is the one committed
to the published native object; the losing caller's compare-and-swap
failure causes its just-created native object to be destroyed
(`dispatch_release`) without ever being published (the final slot is not
its handle), its `init` returns `false`, and its callback is never
installed. -/
theorem init_race_exactly_one_winner
    (cbA cbB : Apple.Callback) (hA hB : Nat) (aFirst : Bool)
    (hhA : hA ≠ 0) (hhB : hB ≠ 0) (hne : hA ≠ hB) :
    ((Apple.raceInit cbA cbB hA hB aFirst).okA = aFirst ∧
     (Apple.raceInit cbA cbB hA hB aFirst).okB = !aFirst) ∧
    (aFirst = true →
      (Apple.raceInit cbA cbB hA hB aFirst).slot = hA ∧
      (Apple.raceInit cbA cbB hA hB aFirst).committed =
        some (cbA.ffi_cb, (Apple.callbackData cbA).2) ∧
      (Apple.raceInit cbA cbB hA hB aFirst).releasedA = [] ∧
      (Apple.raceInit cbA cbB hA hB aFirst).releasedB = [hB] ∧
      (Apple.raceInit cbA cbB hA hB aFirst).slot ≠ hB) ∧
    (aFirst = false →
      (Apple.raceInit cbA cbB hA hB aFirst).slot = hB ∧
      (Apple.raceInit cbA cbB hA hB aFirst).committed =
        some (cbB.ffi_cb, (Apple.callbackData cbB).2) ∧
      (Apple.raceInit cbA cbB hA hB aFirst).releasedB = [] ∧
      (Apple.raceInit cbA cbB hA hB aFirst).releasedA = [hA] ∧
      (Apple.raceInit cbA cbB hA hB aFirst).slot ≠ hA) := by
  cases aFirst <;>
    simp [Apple.raceInit, Apple.initCas, hhA, hhB, hne, Ne.symm hne]

/-- Witness for C1: with two distinct concrete callbacks and handles and
caller A's compare-and-swap first, A's `init` succeeds. -/
theorem init_race_witness :
    (Apple.raceInit (Apple.Callback.plain 3) (Apple.Callback.closure 4) 10 11 true).okA = true :=
  ((init_race_exactly_one_winner (Apple.Callback.plain 3) (Apple.Callback.closure 4)
    10 11 true (by decide) (by decide) (by decide)).1).1

/-- C4: dropping an initialized Win32 timer whose stored callback was a
heap-allocated (`Boxed`/`Closure`) closure emits exactly one reclamation
of that closure through its stored `FatPtr` word (the address
`Box::into_raw` produced at `init`), so the closure's own destructor runs
exactly once; if the stored variant was trivial (`Plain`), no heap
reclamation event occurs at all. -/
theorem win32_drop_reclaims_boxed_exactly_once
    (handle addr f : Nat) (hh : handle ≠ 0) (hb : addr ≠ 0) :
    (Win32.Timer.uninit.init (Win32.Callback.closure addr) handle).1 = true ∧
    ((Win32.Timer.uninit.init (Win32.Callback.closure addr) handle).2.data = addr) ∧
    (((Win32.Timer.uninit.init (Win32.Callback.closure addr) handle).2.drop).count
      (Win32.Event.free_box addr) = 1) ∧
    (Win32.Timer.uninit.init (Win32.Callback.plain f) handle).1 = true ∧
    (∀ a : Nat,
      Win32.Event.free_box a ∉ (Win32.Timer.uninit.init (Win32.Callback.plain f) handle).2.drop) := by
  refine ⟨?_, ?_, ?_, ?_, ?_⟩ <;>
    simp [Win32.Timer.init, Win32.Timer.uninit, Win32.Timer.is_init, Win32.Callback.closure,
      Win32.Callback.plain, Win32.Timer.drop, Win32.Timer.cancel, hh, hb,
      List.count_cons, List.count_nil]

/-- Witness for C4 at a concrete handle and closure address. -/
theorem win32_drop_reclaims_witness :
    ((Win32.Timer.uninit.init (Win32.Callback.closure 5) 2).2.drop).count
      (Win32.Event.free_box 5) = 1 :=
  (win32_drop_reclaims_boxed_exactly_once 2 5 3 (by decide) (by decide)).2.2.1

/-- C6: `cancel` is idempotent.  On an unarmed initialized timer
(already-canceled or never-armed, so `is_scheduled` is `false`), calling
`cancel` any number of times is a no-op — the timer state is unchanged
and no native suspend/disarm call is made on the Apple backend — and
`is_scheduled` reports `false` after each of the calls, on both the
Apple and the POSIX backend. -/
theorem cancel_idempotent_unarmed
    (ta : Apple.Timer) (tp : Posix.Timer) (n : Nat)
    (ha : ta.is_scheduled = false) (hp : tp.is_scheduled = false) :
    Apple.Timer.cancelN ta n = ta ∧ (Apple.Timer.cancelN ta n).is_scheduled = false ∧
    (ta.cancel).2 = [] ∧
    Posix.Timer.cancelN tp n = tp ∧ (Posix.Timer.cancelN tp n).is_scheduled = false := by
  have hsf : ta.suspendFlag = true := by
    revert ha; simp [Apple.Timer.is_scheduled]
  have hA : ∀ m, Apple.Timer.cancelN ta m = ta := by
    intro m
    induction m with
    | zero => rfl
    | succ m ih => simp [Apple.Timer.cancelN, ih, Apple.Timer.cancel, Apple.Timer.suspend, hsf]
  have hP : ∀ m, Posix.Timer.cancelN tp m = tp := by
    intro m
    induction m with
    | zero => rfl
    | succ m ih => simp [Posix.Timer.cancelN, ih, Posix.Timer.cancel, hp]
  refine ⟨hA n, ?_, ?_, hP n, ?_⟩
  · rw [hA n]; simp [Apple.Timer.is_scheduled, hsf]
  · simp [Apple.Timer.cancel, Apple.Timer.suspend, hsf]
  · rw [hP n]; exact hp

/-- Witness for C6: three cancels on a concrete unarmed timer leave it
unchanged. -/
theorem cancel_idempotent_witness :
    Apple.Timer.cancelN (Apple.Timer.mk 1 true 0 none 0 none) 3 =
      Apple.Timer.mk 1 true 0 none 0 none :=
  (cancel_idempotent_unarmed (Apple.Timer.mk 1 true 0 none 0 none)
    (Posix.Timer.mk 1 0 none 0 none) 3 (by decide) (by decide)).1

/-- A value below `2^63` survives the unsigned-to-`i64` cast unchanged. -/
theorem asI64_of_lt (n : Nat) (h : n < 2 ^ 63) : asI64 n = (n : Int) := by
  have h64 : n < 2 ^ 64 := lt_trans h (by norm_num)
  unfold asI64
  rw [Nat.mod_eq_of_lt h64, if_pos h]

/-- The `timespec` built from an in-range duration passes the kernel
validity check. -/
theorem to_timespec_valid (d : Duration) (hn : d.nanos < 1000000000) (hs : d.secs < 2 ^ 63) :
    Posix.timespec_valid (Posix.to_timespec d) = true := by
  have hc : ((d.nanos : Int)) < 1000000000 := by exact_mod_cast hn
  simp [Posix.timespec_valid, Posix.to_timespec, asI64_of_lt d.secs hs, hc]

/-- The `timespec` built from a non-zero in-range duration is non-zero. -/
theorem to_timespec_ne_zero (d : Duration) (hs : d.secs < 2 ^ 63)
    (hnz : d.secs ≠ 0 ∨ d.nanos ≠ 0) :
    Posix.to_timespec d ≠ (⟨0, 0⟩ : Posix.timespec) := by
  intro he
  have h1 := congrArg Posix.timespec.tv_sec he
  have h2 := congrArg Posix.timespec.tv_nsec he
  simp [Posix.to_timespec, asI64_of_lt d.secs hs] at h1 h2
  rcases hnz with h | h
  · exact h h1
  · exact h h2

/-- For in-range durations, `schedule_interval` on the POSIX backend
reaches `timer_settime` with valid timespecs: the call reports success
and the timer is armed unless the initial expiration converts to zero. -/
theorem posix_arm_state (tp : Posix.Timer) (d i : Duration)
    (hdn : d.nanos < 1000000000) (hin : i.nanos < 1000000000)
    (hds : d.secs < 2 ^ 63) (his : i.secs < 2 ^ 63) :
    (tp.schedule_interval d i).1.armed =
      (if Posix.to_timespec d = (⟨0, 0⟩ : Posix.timespec) then none
       else some ⟨Posix.to_timespec i, Posix.to_timespec d⟩) ∧
    (tp.schedule_interval d i).2 = true := by
  have hv1 := to_timespec_valid d hdn hds
  have hv2 := to_timespec_valid i hin his
  by_cases hz : Posix.to_timespec d = (⟨0, 0⟩ : Posix.timespec)
  · simp only [Posix.timespec_valid, Bool.and_eq_true, decide_eq_true_eq] at hv2
    obtain ⟨⟨hv2a, hv2b⟩, hv2c⟩ := hv2
    simp [Posix.Timer.schedule_interval, Posix.timer_settime, hz, Posix.timespec_valid,
      hv2a, hv2b, hv2c]
  · simp [Posix.Timer.schedule_interval, Posix.timer_settime, hv1, hv2, hz]

/-- Disarming with the zeroed `itimerspec` always succeeds and leaves the
timer disarmed, whatever its previous arming state. -/
theorem timer_settime_zero (armed : Option Posix.itimerspec) :
    Posix.timer_settime armed Posix.ZERO_TIMER_DURATION = (true, none) := by
  simp [Posix.timer_settime, Posix.ZERO_TIMER_DURATION, Posix.timespec_valid]

/-- C5 counterexample: on the POSIX backend (the truly-querying one), a
`schedule_interval` with a zero timeout and a one-second interval on an
initialized, disarmed timer returns success, yet `is_scheduled`
immediately afterwards reports `false` — `timer_settime` with a zero
`it_value` disarms the timer instead of arming it, contradicting the
claim that `schedule_interval(timeout, interval)` followed by
`is_scheduled()` always reports `true`. -/
theorem posix_zero_timeout_counterexample :
    ((Posix.Timer.mk 1 0 none 0 none).schedule_interval ⟨0, 0⟩ ⟨1, 0⟩).2 = true ∧
    ((Posix.Timer.mk 1 0 none 0 none).schedule_interval ⟨0, 0⟩ ⟨1, 0⟩).1.is_scheduled = false := by
  decide

/-- C5 amended: for every initialized timer, `schedule_interval(timeout,
interval)` followed immediately by `is_scheduled()` reports `true` on the
armed-flag (Apple) backend unconditionally, and on the truly-querying
(POSIX) backend provided the durations are in native range and the
timeout is non-zero (a zero timeout disarms the timer there); and any
`schedule_once`/`schedule_interval` followed by `cancel` followed by
`is_scheduled()` reports `false` on both backends. -/
theorem schedule_then_query_amended
    (ta : Apple.Timer) (tp : Posix.Timer) (d i : Duration)
    (_ia : ta.is_init = true) (_ip : tp.is_init = true)
    (hdn : d.nanos < 1000000000) (hin : i.nanos < 1000000000)
    (hds : d.secs < 2 ^ 63) (his : i.secs < 2 ^ 63)
    (hnz : d.secs ≠ 0 ∨ d.nanos ≠ 0) :
    (ta.schedule_interval d i).1.is_scheduled = true ∧
    ((ta.schedule_interval d i).1.cancel).1.is_scheduled = false ∧
    ((ta.schedule_once d).1.cancel).1.is_scheduled = false ∧
    (tp.schedule_interval d i).1.is_scheduled = true ∧
    (tp.schedule_interval d i).2 = true ∧
    ((tp.schedule_interval d i).1.cancel).is_scheduled = false := by
  have htd : Posix.to_timespec d ≠ (⟨0, 0⟩ : Posix.timespec) := to_timespec_ne_zero d hds hnz
  have harm := posix_arm_state tp d i hdn hin hds his
  have harmed : (tp.schedule_interval d i).1.armed =
      some ⟨Posix.to_timespec i, Posix.to_timespec d⟩ := by
    rw [harm.1, if_neg htd]
  have hnvne : (⟨Posix.to_timespec i, Posix.to_timespec d⟩ : Posix.itimerspec) ≠
      Posix.ZERO_TIMER_DURATION := by
    intro he
    apply htd
    have hv := congrArg Posix.itimerspec.it_value he
    simpa [Posix.ZERO_TIMER_DURATION] using hv
  have hsched : (tp.schedule_interval d i).1.is_scheduled = true := by
    simp [Posix.Timer.is_scheduled, harmed, Posix.timer_gettime, hnvne]
  refine ⟨?_, ?_, ?_, hsched, harm.2, ?_⟩
  · cases hsf : ta.suspendFlag <;>
      simp [Apple.Timer.schedule_interval, Apple.Timer.suspend, Apple.Timer.resume,
        Apple.Timer.is_scheduled, hsf]
  · cases hsf : ta.suspendFlag <;>
      simp [Apple.Timer.schedule_interval, Apple.Timer.suspend, Apple.Timer.resume,
        Apple.Timer.cancel, Apple.Timer.is_scheduled, hsf]
  · cases hsf : ta.suspendFlag <;>
      simp [Apple.Timer.schedule_once, Apple.Timer.suspend, Apple.Timer.resume,
        Apple.Timer.cancel, Apple.Timer.is_scheduled, hsf]
  · simp [Posix.Timer.cancel, Posix.Timer.is_scheduled, harmed, hnvne,
      timer_settime_zero, Posix.timer_gettime]

/-- Witness for the amended C5 at concrete in-range non-zero durations. -/
theorem schedule_then_query_witness :
    ((Posix.Timer.mk 1 0 none 0 none).schedule_interval ⟨1, 0⟩ ⟨1, 0⟩).1.is_scheduled = true :=
  (schedule_then_query_amended (Apple.Timer.mk 1 true 0 none 0 none)
    (Posix.Timer.mk 1 0 none 0 none) ⟨1, 0⟩ ⟨1, 0⟩ (by decide) (by decide)
    (by decide) (by decide) (by decide) (by decide) (Or.inl (by decide))).2.2.2.1

/-- C7 counterexample: the claim says out-of-range durations are
truncated to the *maximum representable value* of the native type.  On
the Win32 backend, an interval of 4294968000 milliseconds (which exceeds
`u32`) is scheduled as a period of `4294968000 % 2^32 = 704`
milliseconds, not as `u32::MAX = 4294967295`: the Rust `as` cast wraps,
it does not saturate. -/
theorem win32_interval_truncation_counterexample :
    ((Win32.Timer.mk 1 0 none 0 none).schedule_interval ⟨0, 0⟩ ⟨4294968, 0⟩).1.lastSet =
      some (0, 704) ∧ (704 : Nat) ≠ 4294967295 := by
  decide

/-- C7 amended: duration arguments whose value exceeds the native
representable range are silently reduced modulo `2^width` — the `as` cast
keeps the low bits, and for the `i64` dispatch start value reinterprets
the low 64 bits in two's complement — never saturated and never surfaced
as an error (both `schedule_interval` implementations still report
success); in-range values are passed through unchanged. -/
theorem duration_cast_wraps_amended
    (tw : Win32.Timer) (ta : Apple.Timer) (d i : Duration) :
    (tw.schedule_interval d i).2 = true ∧
    (tw.schedule_interval d i).1.lastSet =
      some (Win32.win32_due_ticks d, i.as_millis % 2 ^ 32) ∧
    (∀ n : Nat, n < 2 ^ 32 → asU32 n = n) ∧
    (ta.schedule_interval d i).2.2 = true ∧
    (ta.schedule_interval d i).1.cfg = some (asI64 d.as_nanos, i.as_nanos % 2 ^ 64) ∧
    (∀ n : Nat, n < 2 ^ 63 → asI64 n = (n : Int)) := by
  refine ⟨rfl, ?_, ?_, ?_, ?_, ?_⟩
  · simp [Win32.Timer.schedule_interval, asU32]
  · intro n hn
    exact Nat.mod_eq_of_lt hn
  · cases hsf : ta.suspendFlag <;>
      simp [Apple.Timer.schedule_interval, Apple.Timer.suspend, Apple.Timer.resume, hsf]
  · cases hsf : ta.suspendFlag <;>
      simp [Apple.Timer.schedule_interval, Apple.Timer.suspend, Apple.Timer.resume, asU64, hsf]
  · intro n hn
    exact asI64_of_lt n hn

/-- Witness for the amended C7 at a concrete out-of-range interval. -/
theorem duration_cast_wraps_witness :
    ((Win32.Timer.mk 1 0 none 0 none).schedule_interval ⟨0, 0⟩ ⟨4294968, 0⟩).2 = true :=
  (duration_cast_wraps_amended (Win32.Timer.mk 1 0 none 0 none)
    (Apple.Timer.mk 1 true 0 none 0 none) ⟨0, 0⟩ ⟨4294968, 0⟩).1

/-- Only the zeroth firing of a timer with interval `i` falls inside the
window `[s, s + i)`. -/
theorem fireTime_le_iff (s w : Int) (i k : Nat) (hi : 0 < (i : Int))
    (h1 : s ≤ w) (h2 : w < s + (i : Int)) :
    (Apple.fireTime s i k ≤ w ↔ k = 0) := by
  unfold Apple.fireTime
  constructor
  · intro hle
    by_contra hk
    have hk1 : (1 : Int) ≤ (k : Int) := by
      exact_mod_cast Nat.one_le_iff_ne_zero.mpr hk
    have hmul : (i : Int) ≤ (k : Int) * (i : Int) :=
      le_mul_of_one_le_left (le_of_lt hi) hk1
    linarith
  · intro hk
    subst hk
    simpa using h1

/-- C8: on the dispatch-queue backend, `schedule_once(timeout)` arms the
timer (it ends resumed) by configuring the native source with start
`timeout.as_nanos() as i64` and the infinite repeat interval
`DISPATCH_TIME_FOREVER`, and the native calls form a suspend /
`dispatch_source_set_timer` / resume sequence (the suspend is skipped
only when the source was already suspended, i.e. the flag CAS semantics);
with that configuration, within any horizon short of `start +
DISPATCH_TIME_FOREVER` exactly the firing with index 0 occurs — the timer
fires once after `timeout` and then never again without a new schedule
call. -/
theorem schedule_once_one_shot (t : Apple.Timer) (d : Duration) (_hi : t.is_init = true) :
    (t.schedule_once d).1.cfg = some (asI64 d.as_nanos, Apple.DISPATCH_TIME_FOREVER) ∧
    (t.schedule_once d).1.is_scheduled = true ∧
    (t.schedule_once d).2 =
      (if t.suspendFlag then [] else [Apple.Event.suspend_ev t.inner]) ++
      [Apple.Event.set_timer t.inner (asI64 d.as_nanos) Apple.DISPATCH_TIME_FOREVER 0,
       Apple.Event.resume_ev t.inner] ∧
    (∀ w : Int, ∀ k : Nat, asI64 d.as_nanos ≤ w →
      w < asI64 d.as_nanos + (Apple.DISPATCH_TIME_FOREVER : Int) →
      (Apple.fireTime (asI64 d.as_nanos) Apple.DISPATCH_TIME_FOREVER k ≤ w ↔ k = 0)) := by
  refine ⟨?_, ?_, ?_, ?_⟩
  · cases hsf : t.suspendFlag <;>
      simp [Apple.Timer.schedule_once, Apple.Timer.suspend, Apple.Timer.resume, hsf]
  · cases hsf : t.suspendFlag <;>
      simp [Apple.Timer.schedule_once, Apple.Timer.suspend, Apple.Timer.resume,
        Apple.Timer.is_scheduled, hsf]
  · cases hsf : t.suspendFlag <;>
      simp [Apple.Timer.schedule_once, Apple.Timer.suspend, Apple.Timer.resume, hsf]
  · intro w k h1 h2
    refine fireTime_le_iff _ _ _ _ ?_ h1 h2
    exact_mod_cast (by norm_num : (0 : Nat) < 2 ^ 64 - 1)

/-- Witness for C8 at a concrete initialized timer and timeout. -/
theorem schedule_once_one_shot_witness :
    ((Apple.Timer.mk 1 true 0 none 0 none).schedule_once ⟨0, 5⟩).1.cfg =
      some (asI64 (Duration.mk 0 5).as_nanos, Apple.DISPATCH_TIME_FOREVER) :=
  (schedule_once_one_shot (Apple.Timer.mk 1 true 0 none 0 none) ⟨0, 5⟩ (by decide)).1

end OsTimer
